import Mathlib

/-!
Verification development for the ISS tracker server (`server.py`).

The server keeps a SQLite table `iss_positions` of observed ISS positions,
periodically fetched from an upstream telemetry API, and exposes query /
export endpoints.  This file gives a shallow embedding of the relevant
pieces:

* the table is modelled as a `List Position` in insertion order;
* SQL `DELETE ... WHERE timestamp < ?` and `ORDER BY timestamp` are modelled
  by lexicographic comparison of the timestamp strings (SQLite compares the
  `TEXT` column with binary collation, which on the ASCII strings produced by
  `strftime("%Y-%m-%d %H:%M:%S")` is exactly lexicographic code-point order);
* Python numbers are modelled by `Rat` (real arithmetic, exact), JSON field
  values by the inductive `JVal`, fallible Python code by `Option`;
* `datetime.utcfromtimestamp` / `strftime` are modelled for nonnegative epoch
  seconds by `civilFromSecs` / `render` (proleptic Gregorian calendar,
  Hinnant's civil-from-days algorithm, zero-padded fixed-width rendering).

Handlers are modelled as pure functions that take the HTTP-level inputs and
the current store and return the response together with the resulting store,
so that write effects are visible in the model.
-/

namespace ISSTracker

/-- Lexicographic (code-point) order on strings, as SQLite's binary collation
and Python's `str` comparison order it.  Agrees with Mathlib's `<` on
`String` (`strLt_iff_lt` below) but is defined structurally so that it
evaluates by kernel reduction. -/
def strLt (a b : String) : Prop :=
  List.Lex (· < ·) a.data b.data

instance (a b : String) : Decidable (strLt a b) :=
  List.Lex.decidableRel _ _ _

/-- Reflexive closure of `strLt`; matches `String`'s `≤` (total order). -/
def strLe (a b : String) : Prop :=
  ¬ strLt b a

instance (a b : String) : Decidable (strLe a b) :=
  instDecidableNot

/-- A value read out of a JSON object field, as Python sees it:
the key may be absent, hold `null`, a number, or a string. -/
inductive JVal where
  | missing
  | null
  | num (q : Rat)
  | str (s : String)
  deriving DecidableEq, Repr

/-- Value of a run of decimal digit characters; `none` if the run is empty
or contains a non-digit. -/
def parseDigits (cs : List Char) : Option Nat :=
  if cs.isEmpty then none
  else cs.foldl
    (fun acc c =>
      acc.bind fun n => if c.isDigit then some (n * 10 + (c.toNat - 48)) else none)
    (some 0)

/-- Python `int(s)` on a string: optional sign followed by digits
(common integer literals; anything else raises, i.e. `none`). -/
def parseIntString (s : String) : Option Int :=
  match s.data with
  | '-' :: rest => (parseDigits rest).map fun n => -(n : Int)
  | '+' :: rest => (parseDigits rest).map fun n => (n : Int)
  | cs => (parseDigits cs).map fun n => (n : Int)

/-- Digits of an unsigned decimal literal with optional fractional part,
as Python `float` accepts (`"10"`, `"10.5"`, `"10."`, `".5"`); `none`
otherwise. -/
def parseUnsignedDecimal (cs : List Char) : Option Rat :=
  match cs.splitOn '.' with
  | [intPart] => (parseDigits intPart).map fun n => (n : Rat)
  | [intPart, fracPart] =>
    if intPart.isEmpty && fracPart.isEmpty then none
    else
      let ip : Option Nat := if intPart.isEmpty then some 0 else parseDigits intPart
      let fp : Option Nat := if fracPart.isEmpty then some 0 else parseDigits fracPart
      match ip, fp with
      | some i, some f => some ((i : Rat) + (f : Rat) / ((10 : Rat) ^ fracPart.length))
      | _, _ => none
  | _ => none

/-- Python `float(s)` on a string: optional sign and a decimal literal. -/
def parseFloatString (s : String) : Option Rat :=
  match s.data with
  | '-' :: rest => (parseUnsignedDecimal rest).map fun q => -q
  | '+' :: rest => parseUnsignedDecimal rest
  | cs => parseUnsignedDecimal cs

/-- Python `int(v)` on a JSON field value: numbers truncate toward zero,
integer-literal strings parse, `None`/missing raise (`none`). -/
def pyInt : JVal → Option Int
  | .num q => some (if 0 ≤ q then (⌊q⌋ : Int) else -(⌊-q⌋ : Int))
  | .str s => parseIntString s
  | _ => none

/-- Python `float(v)` on a JSON field value: numbers pass through,
decimal-literal strings parse, `None`/missing raise (`none`). -/
def pyFloat : JVal → Option Rat
  | .num q => some q
  | .str s => parseFloatString s
  | _ => none

/-- A civil UTC date-time, second precision, as produced by
`datetime.utcfromtimestamp`. -/
structure DateTime where
  year : Nat
  month : Nat
  day : Nat
  hour : Nat
  minute : Nat
  second : Nat
  deriving DecidableEq, Repr

/-- Component ranges of a well-formed `DateTime` whose canonical rendering
is the fixed-width `YYYY-MM-DD HH:MM:SS` (in particular a four-digit
year). -/
def DateTime.Valid (dt : DateTime) : Prop :=
  1000 ≤ dt.year ∧ dt.year ≤ 9999 ∧ 1 ≤ dt.month ∧ dt.month ≤ 12 ∧
    1 ≤ dt.day ∧ dt.day ≤ 31 ∧ dt.hour ≤ 23 ∧ dt.minute ≤ 59 ∧ dt.second ≤ 59

instance (dt : DateTime) : Decidable dt.Valid := by
  unfold DateTime.Valid
  infer_instance

/-- Decimal rendering of `n` as exactly `k` digits, most significant first
(zero padded), as `strftime`'s `%Y`, `%m`, `%d`, `%H`, `%M`, `%S` render
their fields. -/
def padNum : Nat → Nat → List Char
  | 0, _ => []
  | k + 1, n => padNum k (n / 10) ++ [Nat.digitChar (n % 10)]

/-- Character list of `strftime("%Y-%m-%d")`. -/
def renderDateChars (dt : DateTime) : List Char :=
  padNum 4 dt.year ++ '-' :: padNum 2 dt.month ++ '-' :: padNum 2 dt.day

/-- Character list of `strftime("%H:%M:%S")`. -/
def renderTimeChars (dt : DateTime) : List Char :=
  padNum 2 dt.hour ++ ':' :: padNum 2 dt.minute ++ ':' :: padNum 2 dt.second

/-- Character list of `strftime("%Y-%m-%d %H:%M:%S")`. -/
def renderChars (dt : DateTime) : List Char :=
  renderDateChars dt ++ ' ' :: renderTimeChars dt

/-- Model of `strftime("%Y-%m-%d %H:%M:%S")`: canonical timestamp rendering. -/
def render (dt : DateTime) : String :=
  String.mk (renderChars dt)

/-- Model of `strftime("%Y-%m-%d")`: canonical date rendering. -/
def renderDate (dt : DateTime) : String :=
  String.mk (renderDateChars dt)

/-- Chronological (strict) order of two civil UTC instants: lexicographic on
the components year, month, day, hour, minute, second. -/
def chronLt (a b : DateTime) : Prop :=
  a.year < b.year ∨ (a.year = b.year ∧ (a.month < b.month ∨ (a.month = b.month ∧
    (a.day < b.day ∨ (a.day = b.day ∧ (a.hour < b.hour ∨ (a.hour = b.hour ∧
      (a.minute < b.minute ∨ (a.minute = b.minute ∧ a.second < b.second)))))))))

instance (a b : DateTime) : Decidable (chronLt a b) := by
  unfold chronLt
  infer_instance

/-- Instant `a` is chronologically no later than `b`. -/
def chronLE (a b : DateTime) : Prop :=
  ¬ chronLt b a

instance (a b : DateTime) : Decidable (chronLE a b) :=
  instDecidableNot

/-- Civil date from a count of days since 1970-01-01 (proleptic Gregorian,
Hinnant's `civil_from_days`), returning `(year, month, day)`. -/
def civilFromDays (z0 : Nat) : Nat × Nat × Nat :=
  let z := z0 + 719468
  let era := z / 146097
  let doe := z % 146097
  let yoe := (doe - doe / 1460 + doe / 36524 - doe / 146096) / 365
  let y := yoe + era * 400
  let doy := doe - (365 * yoe + yoe / 4 - yoe / 100)
  let mp := (5 * doy + 2) / 153
  let d := doy - (153 * mp + 2) / 5 + 1
  let m := if mp < 10 then mp + 3 else mp - 9
  (if m ≤ 2 then y + 1 else y, m, d)

/-- Model of `datetime.utcfromtimestamp` for nonnegative epoch seconds. -/
def civilFromSecs (secs : Nat) : DateTime :=
  let days := secs / 86400
  let rem := secs % 86400
  let c := civilFromDays days
  ⟨c.1, c.2.1, c.2.2, rem / 3600, rem % 3600 / 60, rem % 60⟩

/-- Model of `datetime.utcfromtimestamp(secs).strftime("%Y-%m-%d %H:%M:%S")`. -/
def renderEpoch (secs : Nat) : String :=
  render (civilFromSecs secs)

/-- One row of the `iss_positions` table. -/
structure Position where
  id : Nat
  latitude : Rat
  longitude : Rat
  altitude : Option Rat
  timestamp : String
  day : String
  deriving DecidableEq, Repr

/-- The next `AUTOINCREMENT` id: one more than the largest id handed out. -/
def nextId (store : List Position) : Nat :=
  (store.map (·.id)).foldr max 0 + 1

/-- Model of `ts_utc.split(" ")[0]`: the part of the string before the first space. -/
def dayOf (ts : String) : String :=
  String.mk (ts.data.takeWhile fun c => c ≠ ' ')

/-- Model of `save_position` (server.py lines 54-63): derives `day` from the timestamp
and appends one row to the table. -/
def save_position (store : List Position) (latitude longitude : Rat)
    (altitude : Option Rat) (ts_utc : String) : List Position :=
  store ++ [{ id := nextId store, latitude := latitude, longitude := longitude,
              altitude := altitude, timestamp := ts_utc, day := dayOf ts_utc }]

/-- Model of `cleanup_old_data` (server.py lines 65-74):
`DELETE FROM iss_positions WHERE timestamp < cutoff` on the TEXT column.
Returns the surviving rows together with `cur.rowcount`, the number of rows
deleted (the code logs this count). -/
def cleanup_old_data (cutoff : String) (store : List Position) :
    List Position × Nat :=
  (store.filter fun r => !decide (strLt r.timestamp cutoff),
   store.countP fun r => decide (strLt r.timestamp cutoff))

/-- Model of `get_record_count` (server.py lines 76-82). -/
def get_record_count (store : List Position) : Nat :=
  store.length

/-- A JSON payload received from the upstream telemetry API: the four flat
fields plus the optional nested `iss_position` object (with its own
latitude / longitude fields).  `iss_position = some _` models the key being
present with a non-empty (truthy) object. -/
structure Payload where
  latitude : JVal
  longitude : JVal
  altitude : JVal
  timestamp : JVal
  iss_position : Option (JVal × JVal)
  deriving DecidableEq, Repr

/-- The parsed position dict built by the two parse functions, pre-insert. -/
structure ParsedPos where
  latitude : Rat
  longitude : Rat
  altitude : Option Rat
  ts_utc : String
  deriving DecidableEq, Repr

/-- Model of `int(data.get("timestamp", time.time()))`: a missing key falls back to
the current instant; a present value goes through `int`, which raises
(`none`) on `null` and on non-integer strings. -/
def tsOrNow (v : JVal) (now : Nat) : Option Int :=
  match v with
  | .missing => some (now : Int)
  | v => pyInt v

/-- Model of `parse_wther_resp` (server.py lines 85-92).  Any raised exception is
modelled as `none` (it is caught by `fetch_iss_position_once`'s `try`). -/
def parse_wther_resp (data : Payload) (now : Nat) : Option ParsedPos := do
  let t ← tsOrNow data.timestamp now
  let lat ← pyFloat data.latitude
  let lon ← pyFloat data.longitude
  let alt ← match data.altitude with
    | .missing => some none
    | .null => some none
    | v => (pyFloat v).map some
  some ⟨lat, lon, alt, renderEpoch t.toNat⟩

/-- Model of `parse_open_notify` (server.py lines 94-102): reads latitude/longitude
from the nested `iss_position` object (`{}` when absent, so its fields read
as `None`), altitude is always `None`. -/
def parse_open_notify (data : Payload) (now : Nat) : Option ParsedPos := do
  let t ← tsOrNow data.timestamp now
  let pos := match data.iss_position with
    | some p => p
    | none => (JVal.missing, JVal.missing)
  let lat ← pyFloat pos.1
  let lon ← pyFloat pos.2
  some ⟨lat, lon, none, renderEpoch t.toNat⟩

/-- Model of `fetch_iss_position_once` (server.py lines 104-115): `resp = none`
models a network / HTTP / JSON failure; otherwise dispatch on the presence
of a truthy `iss_position` field; any parse exception yields `none`. -/
def fetch_iss_position_once (resp : Option Payload) (now : Nat) :
    Option ParsedPos :=
  match resp with
  | none => none
  | some data =>
    if data.iss_position.isSome then parse_open_notify data now
    else parse_wther_resp data now

/-- The response of `/api/current`: the freshly fetched live position, the
latest stored row, or the 404 "No data available" signal. -/
inductive CurrentResp where
  | live (p : ParsedPos)
  | stored (p : Position)
  | noData
  deriving DecidableEq, Repr

/-- HTTP status attached to a `/api/current` response. -/
def CurrentResp.status : CurrentResp → Nat
  | .noData => 404
  | _ => 200

/-- Model of `SELECT ... ORDER BY timestamp DESC LIMIT 1`: a row with the greatest
timestamp string (the earliest-inserted such row on ties). -/
def latestByTimestamp : List Position → Option Position
  | [] => none
  | r :: rest =>
    match latestByTimestamp rest with
    | none => some r
    | some b => if strLt r.timestamp b.timestamp then some b else some r

/-- Model of `api_current` (server.py lines 174-196).  `fetched` is the result of the
live `fetch_iss_position_once` call.  On fetch success the handler *saves*
the live sample and returns it; only on fetch failure does it read the
stored data, falling back to 404 when the table is empty. -/
def api_current (fetched : Option ParsedPos) (store : List Position) :
    CurrentResp × List Position :=
  match fetched with
  | some pos =>
    (.live pos, save_position store pos.latitude pos.longitude pos.altitude pos.ts_utc)
  | none =>
    match latestByTimestamp store with
    | some row => (.stored row, store)
    | none => (.noData, store)

/-- Model of `int(request.args.get(name, default))`: an absent query parameter takes
the integer default, a present one is the raw string passed to `int`. -/
def argInt (arg : Option String) (default : Int) : Option Int :=
  match arg with
  | none => some default
  | some s => parseIntString s

/-- Rows sorted by `ORDER BY timestamp DESC` (stable). -/
def sortByTsDesc (l : List Position) : List Position :=
  l.insertionSort fun a b => strLe b.timestamp a.timestamp

/-- Rows sorted by `ORDER BY timestamp ASC` (stable). -/
def sortByTsAsc (l : List Position) : List Position :=
  l.insertionSort fun a b => strLe a.timestamp b.timestamp

/-- Model of `SELECT DISTINCT day FROM iss_positions ORDER BY day DESC`. -/
def distinctDaysDesc (store : List Position) : List String :=
  ((store.map (·.day)).dedup).insertionSort fun a b => strLe b a

/-- The JSON body returned by `/api/all-records`. -/
structure RecordsResp where
  records : List Position
  total : Nat
  page : Nat
  per_page : Nat
  total_pages : Nat
  available_days : List String
  deriving DecidableEq, Repr

/-- Model of `api_all_records` (server.py lines 198-250).  A raised exception inside
the handler (in particular `int()` on a non-integer query parameter) is
caught and answered with the 500 "Unable to fetch records" error.  An empty
`day` string is falsy in Python, so it disables the day filter. -/
def api_all_records (pageArg per_pageArg : Option String)
    (day_filter : Option String) (store : List Position) :
    Except String RecordsResp × List Position :=
  match argInt pageArg 1, argInt per_pageArg 1000 with
  | some p0, some pp0 =>
    let page : Int := max 1 p0
    let per_page : Int := min 5000 (max 1 pp0)
    let matching := match day_filter with
      | some d => if d.isEmpty then store else store.filter fun r => decide (r.day = d)
      | none => store
    let total := matching.length
    let days := distinctDaysDesc store
    let rows := ((sortByTsDesc matching).drop ((page - 1).toNat * per_page.toNat)).take
      per_page.toNat
    let total_pages := if total = 0 then 1 else (total + per_page.toNat - 1) / per_page.toNat
    (.ok { records := rows, total := total, page := page.toNat,
           per_page := per_page.toNat, total_pages := total_pages,
           available_days := days },
     store)
  | _, _ => (.error "Unable to fetch records", store)

/-- The observable output of `/api/download-csv`: the header row, the table
rows in the order the generator yields them (one CSV data row is produced
per returned row; the textual rendering of the numeric cells is elided),
and the attachment filename. -/
structure CsvOut where
  header : String
  rows : List Position
  filename : String
  deriving DecidableEq, Repr

/-- Model of `download_csv` (server.py lines 252-283).  `day_filter` is the `day`
query parameter, `allFlag` is `request.args.get("all","0") == "1"`; an
empty day string is falsy.  The generator yields the header and then one
row per selected record, `ORDER BY timestamp ASC`. -/
def download_csv (day_filter : Option String) (allFlag : Bool)
    (store : List Position) : CsvOut × List Position :=
  let dayTruthy : Bool := match day_filter with
    | some d => !d.isEmpty
    | none => false
  let rows := if dayTruthy && !allFlag then
      sortByTsAsc (store.filter fun r =>
        decide (r.day = (match day_filter with | some d => d | none => "")))
    else sortByTsAsc store
  let fname := match day_filter with
    | some d => if d.isEmpty then "iss_data_all.csv" else "iss_data_" ++ d ++ ".csv"
    | none => "iss_data_all.csv"
  ({ header := "id,latitude,longitude,altitude,ts_utc,day", rows := rows,
     filename := fname }, store)

/-- The JSON body returned by `/api/stats` (rounding of the derived float
coverage figures is elided; they are kept as exact rationals). -/
structure StatsResp where
  total_records : Nat
  total_hours : Rat
  total_days : Rat
  records_per_day : List (String × Nat)
  deriving DecidableEq, Repr

/-- Model of `api_stats` (server.py lines 285-307). -/
def api_stats (store : List Position) : StatsResp × List Position :=
  let total := store.length
  let days := distinctDaysDesc store
  ({ total_records := total,
     total_hours := (total : Rat) / 3600,
     total_days := (total : Rat) / 3600 / 24,
     records_per_day := days.map fun d => (d, store.countP fun r => decide (r.day = d)) },
   store)

/-- Python float value of `45.0 + ((i % 180) - 90)`: the latitude the sample
seeder assigns to index `i` (exact integer arithmetic). -/
def seedLat (i : Nat) : Rat :=
  ((45 + (((i % 180 : Nat) : Int) - 90) : Int) : Rat)

/-- Python `x % m` on floats for positive `m`: `x - m * floor(x / m)`. -/
def pymodRat (x m : Rat) : Rat :=
  x - m * (⌊x / m⌋ : Int)

/-- Python float value of `-180.0 + ((i * 0.72) % 360)`: the longitude the
sample seeder assigns to index `i` (modelled exactly over the rationals). -/
def seedLon (i : Nat) : Rat :=
  -180 + pymodRat ((i : Rat) * (72 / 100)) 360

/-- Python float value of `408.0 + (i % 20) * 0.3`: the seeder altitude. -/
def seedAlt (i : Nat) : Rat :=
  408 + ((i % 20 : Nat) : Rat) * (3 / 10)

/-- One row inserted by the sample-data seeder in `ensure_started`
(server.py lines 313-332), for `day_off = dayOff` and inner index `i`,
with `now` the UTC instant (epoch seconds) at seeding time: the timestamp
is `now - dayOff days - i seconds` rendered canonically, but `day` is the
date of the day's *base* instant `now - dayOff days`, not of the row's own
timestamp.  Ids follow `AUTOINCREMENT` on the empty table. -/
def seedRecord (now dayOff i : Nat) : Position :=
  { id := dayOff * 1000 + i + 1,
    latitude := seedLat i,
    longitude := seedLon i,
    altitude := some (seedAlt i),
    timestamp := renderEpoch (now - dayOff * 86400 - i),
    day := renderDate (civilFromSecs (now - dayOff * 86400)) }

/-- All 3000 rows inserted by the sample-data seeder, in insertion order. -/
def seedRecords (now : Nat) : List Position :=
  (List.range 3).flatMap fun dayOff =>
    (List.range 1000).map fun i => seedRecord now dayOff i

/-! ## Order of canonical timestamp strings

The string comparison used by the store (`strLt`) agrees with Mathlib's
order on `String`, and on canonically rendered timestamps it agrees with
chronological order.  The proof works through the fixed-width zero-padded
decimal rendering `padNum`. -/

theorem strLt_iff_lt {a b : String} : strLt a b ↔ a < b := by
  rw [String.lt_iff_toList_lt]
  exact Iff.rfl

theorem strLe_iff_le {a b : String} : strLe a b ↔ a ≤ b := by
  unfold strLe
  rw [strLt_iff_lt]
  exact not_lt

theorem lex_cons_iff {x y : Char} {l1 l2 : List Char} :
    List.Lex (· < ·) (x :: l1) (y :: l2) ↔ x < y ∨ (x = y ∧ List.Lex (· < ·) l1 l2) := by
  constructor
  · intro h
    cases h with
    | cons h => exact Or.inr ⟨rfl, h⟩
    | rel h => exact Or.inl h
  · rintro (h | ⟨rfl, h⟩)
    · exact List.Lex.rel h
    · exact List.Lex.cons h

theorem lex_cons_self_iff {c : Char} {l1 l2 : List Char} :
    List.Lex (· < ·) (c :: l1) (c :: l2) ↔ List.Lex (· < ·) l1 l2 := by
  rw [lex_cons_iff]
  simp [lt_irrefl]

theorem lex_append_iff {a b : List Char} (t1 t2 : List Char) (h : a.length = b.length) :
    List.Lex (· < ·) (a ++ t1) (b ++ t2) ↔
      List.Lex (· < ·) a b ∨ (a = b ∧ List.Lex (· < ·) t1 t2) := by
  induction a generalizing b with
  | nil =>
    cases b with
    | nil => simp
    | cons y ys => simp at h
  | cons x xs ih =>
    cases b with
    | nil => simp at h
    | cons y ys =>
      simp only [List.cons_append, lex_cons_iff, List.cons.injEq]
      rw [ih (by simpa using h)]
      tauto

theorem padNum_length (k n : Nat) : (padNum k n).length = k := by
  induction k generalizing n with
  | zero => rfl
  | succ k ih => simp [padNum, ih]

theorem digitChar_lt_digitChar : ∀ d < 10, ∀ e < 10,
    (Nat.digitChar d < Nat.digitChar e ↔ d < e) := by decide

theorem digitChar_eq_digitChar : ∀ d < 10, ∀ e < 10,
    (Nat.digitChar d = Nat.digitChar e ↔ d = e) := by decide

theorem digitChar_ne_space : ∀ d < 10, Nat.digitChar d ≠ ' ' := by decide

theorem padNum_eq_iff : ∀ {k n m : Nat}, n < 10 ^ k → m < 10 ^ k →
    (padNum k n = padNum k m ↔ n = m) := by
  intro k
  induction k with
  | zero =>
    intro n m hn hm
    simp only [pow_zero, Nat.lt_one_iff] at hn hm
    subst hn
    subst hm
    simp
  | succ k ih =>
    intro n m hn hm
    have hn10 : n / 10 < 10 ^ k := by
      rw [Nat.div_lt_iff_lt_mul (by norm_num)]
      calc n < 10 ^ (k + 1) := hn
        _ = 10 ^ k * 10 := by ring
    have hm10 : m / 10 < 10 ^ k := by
      rw [Nat.div_lt_iff_lt_mul (by norm_num)]
      calc m < 10 ^ (k + 1) := hm
        _ = 10 ^ k * 10 := by ring
    simp only [padNum]
    constructor
    · intro hEq
      obtain ⟨h1, h2⟩ := List.append_inj hEq (by rw [padNum_length, padNum_length])
      have e1 := (ih hn10 hm10).mp h1
      have e2 := (digitChar_eq_digitChar _ (Nat.mod_lt _ (by norm_num)) _
        (Nat.mod_lt _ (by norm_num))).mp (by simpa using h2)
      omega
    · rintro rfl
      rfl

theorem padNum_lt_iff : ∀ {k n m : Nat}, n < 10 ^ k → m < 10 ^ k →
    (List.Lex (· < ·) (padNum k n) (padNum k m) ↔ n < m) := by
  intro k
  induction k with
  | zero =>
    intro n m hn hm
    simp only [pow_zero, Nat.lt_one_iff] at hn hm
    subst hn
    subst hm
    simp [padNum]
  | succ k ih =>
    intro n m hn hm
    have hn10 : n / 10 < 10 ^ k := by
      rw [Nat.div_lt_iff_lt_mul (by norm_num)]
      calc n < 10 ^ (k + 1) := hn
        _ = 10 ^ k * 10 := by ring
    have hm10 : m / 10 < 10 ^ k := by
      rw [Nat.div_lt_iff_lt_mul (by norm_num)]
      calc m < 10 ^ (k + 1) := hm
        _ = 10 ^ k * 10 := by ring
    simp only [padNum]
    rw [lex_append_iff _ _ (by rw [padNum_length, padNum_length]),
        ih hn10 hm10, padNum_eq_iff hn10 hm10, List.Lex.singleton_iff,
        digitChar_lt_digitChar _ (Nat.mod_lt _ (by norm_num)) _
          (Nat.mod_lt _ (by norm_num))]
    omega

theorem renderChars_lex_iff {a b : DateTime} (ha : a.Valid) (hb : b.Valid) :
    List.Lex (· < ·) (renderChars a) (renderChars b) ↔ chronLt a b := by
  obtain ⟨hy1, hy2, hmo1, hmo2, hd1, hd2, hh, hmi, hs⟩ := ha
  obtain ⟨gy1, gy2, gmo1, gmo2, gd1, gd2, gh, gmi, gs⟩ := hb
  have py : a.year < 10 ^ 4 := by norm_num; omega
  have qy : b.year < 10 ^ 4 := by norm_num; omega
  have pmo : a.month < 10 ^ 2 := by norm_num; omega
  have qmo : b.month < 10 ^ 2 := by norm_num; omega
  have pd : a.day < 10 ^ 2 := by norm_num; omega
  have qd : b.day < 10 ^ 2 := by norm_num; omega
  have ph : a.hour < 10 ^ 2 := by norm_num; omega
  have qh : b.hour < 10 ^ 2 := by norm_num; omega
  have pmi : a.minute < 10 ^ 2 := by norm_num; omega
  have qmi : b.minute < 10 ^ 2 := by norm_num; omega
  have ps : a.second < 10 ^ 2 := by norm_num; omega
  have qs : b.second < 10 ^ 2 := by norm_num; omega
  unfold renderChars renderDateChars renderTimeChars chronLt
  simp only [List.cons_append, List.append_assoc]
  rw [lex_append_iff _ _ (by rw [padNum_length, padNum_length]),
      padNum_lt_iff py qy, padNum_eq_iff py qy, lex_cons_self_iff,
      lex_append_iff _ _ (by rw [padNum_length, padNum_length]),
      padNum_lt_iff pmo qmo, padNum_eq_iff pmo qmo, lex_cons_self_iff,
      lex_append_iff _ _ (by rw [padNum_length, padNum_length]),
      padNum_lt_iff pd qd, padNum_eq_iff pd qd, lex_cons_self_iff,
      lex_append_iff _ _ (by rw [padNum_length, padNum_length]),
      padNum_lt_iff ph qh, padNum_eq_iff ph qh, lex_cons_self_iff,
      lex_append_iff _ _ (by rw [padNum_length, padNum_length]),
      padNum_lt_iff pmi qmi, padNum_eq_iff pmi qmi, lex_cons_self_iff,
      padNum_lt_iff ps qs]

theorem render_lt_iff {a b : DateTime} (ha : a.Valid) (hb : b.Valid) :
    strLt (render a) (render b) ↔ chronLt a b :=
  renderChars_lex_iff ha hb

theorem strLe_refl (a : String) : strLe a a := by
  rw [strLe_iff_le]

theorem strLe_trans {a b c : String} (h1 : strLe a b) (h2 : strLe b c) : strLe a c := by
  rw [strLe_iff_le] at h1 h2 ⊢
  exact le_trans h1 h2

theorem strLe_total (a b : String) : strLe a b ∨ strLe b a := by
  rw [strLe_iff_le, strLe_iff_le]
  exact le_total a b

theorem strLe_of_lt {a b : String} (h : strLt a b) : strLe a b := by
  rw [strLe_iff_le]
  rw [strLt_iff_lt] at h
  exact le_of_lt h

theorem strLe_of_not_lt {a b : String} (h : ¬ strLt a b) : strLe b a :=
  h

/-! ## The `day` column and canonical renderings -/

theorem takeWhile_ne_space (l r : List Char) (hl : ∀ c ∈ l, c ≠ ' ') :
    (l ++ ' ' :: r).takeWhile (fun c => c ≠ ' ') = l := by
  induction l with
  | nil => simp [List.takeWhile_cons]
  | cons x xs ih =>
    have hx : x ≠ ' ' := hl x (by simp)
    rw [List.cons_append, List.takeWhile_cons, if_pos (by simp [hx])]
    exact congrArg (x :: ·) (ih fun c hc => hl c (by simp [hc]))

theorem padNum_ne_space {k n : Nat} : ∀ c ∈ padNum k n, c ≠ ' ' := by
  induction k generalizing n with
  | zero =>
    intro c hc
    simp [padNum] at hc
  | succ k ih =>
    intro c hc
    simp only [padNum, List.mem_append, List.mem_singleton] at hc
    rcases hc with h | h
    · exact ih _ h
    · subst h
      exact digitChar_ne_space _ (Nat.mod_lt _ (by norm_num))

theorem renderDateChars_ne_space (dt : DateTime) : ∀ c ∈ renderDateChars dt, c ≠ ' ' := by
  intro c hc
  unfold renderDateChars at hc
  rcases List.mem_append.mp hc with h | h
  · rcases List.mem_append.mp h with h | h
    · exact padNum_ne_space c h
    · rcases List.mem_cons.mp h with rfl | h
      · decide
      · exact padNum_ne_space c h
  · rcases List.mem_cons.mp h with rfl | h
    · decide
    · exact padNum_ne_space c h

theorem dayOf_render (dt : DateTime) : dayOf (render dt) = renderDate dt := by
  unfold dayOf render renderChars renderDate
  exact congrArg String.mk (takeWhile_ne_space _ _ (renderDateChars_ne_space dt))

theorem renderDateChars_length (dt : DateTime) : (renderDateChars dt).length = 10 := by
  simp [renderDateChars, padNum_length]

theorem render_take_ten (dt : DateTime) :
    String.mk ((render dt).data.take 10) = renderDate dt := by
  unfold render renderChars renderDate
  refine congrArg String.mk ?_
  rw [show (10 : Nat) = (renderDateChars dt).length from (renderDateChars_length dt).symm]
  exact List.take_left _ _

/-! ## The latest-row query -/

theorem latestByTimestamp_eq_none {l : List Position}
    (h : latestByTimestamp l = none) : l = [] := by
  cases l with
  | nil => rfl
  | cons x rest =>
    cases hrec : latestByTimestamp rest with
    | none => simp [latestByTimestamp, hrec] at h
    | some b =>
      simp only [latestByTimestamp, hrec] at h
      split_ifs at h

theorem latestByTimestamp_spec :
    ∀ store : List Position, store ≠ [] →
      ∃ r, latestByTimestamp store = some r ∧ r ∈ store ∧
        ∀ q ∈ store, strLe q.timestamp r.timestamp
  | [], h => absurd rfl h
  | x :: rest, _ => by
    cases hrec : latestByTimestamp rest with
    | none =>
      have hn : rest = [] := latestByTimestamp_eq_none hrec
      subst hn
      refine ⟨x, by simp [latestByTimestamp], by simp, ?_⟩
      intro q hq
      rcases List.mem_singleton.mp hq with rfl
      exact strLe_refl _
    | some b =>
      have hne : rest ≠ [] := by
        rintro rfl
        simp [latestByTimestamp] at hrec
      obtain ⟨r, hr, hmem, hall⟩ := latestByTimestamp_spec rest hne
      rw [hrec] at hr
      obtain rfl : b = r := by injection hr
      by_cases hx : strLt x.timestamp b.timestamp
      · refine ⟨b, by simp [latestByTimestamp, hrec, hx], List.mem_cons_of_mem _ hmem, ?_⟩
        intro q hq
        rcases List.mem_cons.mp hq with rfl | hq
        · exact strLe_of_lt hx
        · exact hall q hq
      · refine ⟨x, by simp [latestByTimestamp, hrec, hx], List.mem_cons_self _ _, ?_⟩
        intro q hq
        rcases List.mem_cons.mp hq with rfl | hq
        · exact strLe_refl _
        · exact strLe_trans (hall q hq) (strLe_of_not_lt hx)

/-! ## Bounds for the sample-data seeder -/

theorem pymodRat_bounds (x : Rat) : 0 ≤ pymodRat x 360 ∧ pymodRat x 360 < 360 := by
  unfold pymodRat
  have h1 := Int.floor_le (x / 360)
  have h2 := Int.lt_floor_add_one (x / 360)
  have e : (360 : Rat) * (x / 360) = x := by field_simp
  constructor
  · nlinarith
  · nlinarith

theorem renderDate_civil_sub {t i : Nat} (hi : i ≤ t % 86400) :
    renderDate (civilFromSecs (t - i)) = renderDate (civilFromSecs t) := by
  have hdiv : (t - i) / 86400 = t / 86400 := by omega
  simp only [civilFromSecs, renderDate, renderDateChars, hdiv]

/-- A second eviction pass with the same cutoff keeps every surviving row
and deletes 0 rows. -/
theorem cleanup_idem (cutoff : String) (store : List Position) :
    cleanup_old_data cutoff (cleanup_old_data cutoff store).1
      = ((cleanup_old_data cutoff store).1, 0) := by
  unfold cleanup_old_data
  dsimp only
  simp only [Prod.mk.injEq]
  constructor
  · refine List.filter_eq_self.mpr fun r hr => ?_
    exact (List.mem_filter.mp hr).2
  · refine List.countP_eq_zero.mpr fun r hr => ?_
    have h := (List.mem_filter.mp hr).2
    simp only [Bool.not_eq_true'] at h
    simp [h]

/-! ## Claims -/

/-- C10: for every pair of timestamps rendered in the canonical form
`YYYY-MM-DD HH:MM:SS`, lexicographic (string) comparison agrees with
chronological comparison; hence the string comparisons the store performs
(the eviction cutoff test of `cleanup_old_data` and the `ORDER BY
timestamp` orderings, all of which compare via `strLt` / `strLe`) coincide
with ordering by actual time. -/
theorem claim_c10_string_order_chronological (a b : DateTime)
    (ha : a.Valid) (hb : b.Valid) :
    (strLt (render a) (render b) ↔ chronLt a b) ∧
    (strLe (render a) (render b) ↔ chronLE a b) :=
  ⟨render_lt_iff ha hb, not_congr (render_lt_iff hb ha)⟩

theorem claim_c10_witness :
    (⟨2023, 12, 8, 23, 58, 20⟩ : DateTime).Valid ∧
    (⟨2023, 12, 9, 0, 1, 40⟩ : DateTime).Valid ∧
    ((strLt (render ⟨2023, 12, 8, 23, 58, 20⟩) (render ⟨2023, 12, 9, 0, 1, 40⟩) ↔
        chronLt ⟨2023, 12, 8, 23, 58, 20⟩ ⟨2023, 12, 9, 0, 1, 40⟩) ∧
      (strLe (render ⟨2023, 12, 8, 23, 58, 20⟩) (render ⟨2023, 12, 9, 0, 1, 40⟩) ↔
        chronLE ⟨2023, 12, 8, 23, 58, 20⟩ ⟨2023, 12, 9, 0, 1, 40⟩)) :=
  ⟨by decide, by decide,
    claim_c10_string_order_chronological _ _ (by decide) (by decide)⟩

/-- C1: for a store of canonically rendered timestamps and a cutoff instant
`cdt` (the claim's `now - retention_days`), `cleanup_old_data (render cdt)`
(a) returns as its count exactly the number of records chronologically
strictly earlier than the cutoff, (b) keeps a record iff it is not strictly
earlier than the cutoff, (c) leaves only records with `cdt ≤ timestamp`
chronologically (i.e. `now - timestamp ≤ retention_days`), and (d) is
idempotent: an immediate second eviction keeps everything and removes 0. -/
theorem claim_c1_eviction (store : List Position) (cdt : DateTime)
    (dts : Position → DateTime)
    (hts : ∀ r ∈ store, r.timestamp = render (dts r) ∧ (dts r).Valid)
    (hc : cdt.Valid) :
    ((cleanup_old_data (render cdt) store).2
        = store.countP fun r => decide (chronLt (dts r) cdt)) ∧
    (∀ r ∈ store,
      (r ∈ (cleanup_old_data (render cdt) store).1 ↔ ¬ chronLt (dts r) cdt)) ∧
    (∀ r ∈ (cleanup_old_data (render cdt) store).1, chronLE cdt (dts r)) ∧
    cleanup_old_data (render cdt) (cleanup_old_data (render cdt) store).1
      = ((cleanup_old_data (render cdt) store).1, 0) := by
  have key : ∀ r ∈ store,
      strLt r.timestamp (render cdt) ↔ chronLt (dts r) cdt := by
    intro r hr
    obtain ⟨he, hv⟩ := hts r hr
    rw [he]
    exact render_lt_iff hv hc
  have hmem : ∀ r ∈ store,
      (r ∈ (cleanup_old_data (render cdt) store).1 ↔ ¬ chronLt (dts r) cdt) := by
    intro r hr
    unfold cleanup_old_data
    rw [List.mem_filter]
    simp only [Bool.not_eq_true', decide_eq_false_iff_not]
    constructor
    · rintro ⟨-, hp⟩
      exact fun hch => hp ((key r hr).mpr hch)
    · exact fun hch => ⟨hr, fun hlt => hch ((key r hr).mp hlt)⟩
  have hcount : (cleanup_old_data (render cdt) store).2
      = store.countP fun r => decide (chronLt (dts r) cdt) := by
    unfold cleanup_old_data
    refine List.countP_congr fun r hr => ?_
    simp only [decide_eq_true_eq]
    exact key r hr
  have hkept : ∀ r ∈ (cleanup_old_data (render cdt) store).1,
      ¬ strLt r.timestamp (render cdt) := by
    intro r hr
    have hr2 := List.mem_filter.mp hr
    simp only [Bool.not_eq_true', decide_eq_false_iff_not] at hr2
    exact hr2.2
  refine ⟨hcount, hmem, ?_, cleanup_idem _ _⟩
  intro r hr
  have hst := (List.mem_filter.mp hr).1
  exact fun hch => (hkept r hr) ((key r hst).mpr hch)

/-- Concrete two-row store for the C1 witness: one row strictly before the
cutoff instant, one after. -/
def c1Store : List Position :=
  [{ id := 1, latitude := 1, longitude := 2, altitude := none,
     timestamp := render ⟨2023, 12, 5, 0, 0, 0⟩, day := "2023-12-05" },
   { id := 2, latitude := 3, longitude := 4, altitude := none,
     timestamp := render ⟨2023, 12, 8, 12, 0, 0⟩, day := "2023-12-08" }]

/-- Datetime assignment for the C1 witness rows. -/
def c1Dts (r : Position) : DateTime :=
  if r.id = 1 then ⟨2023, 12, 5, 0, 0, 0⟩ else ⟨2023, 12, 8, 12, 0, 0⟩

/-- Cutoff instant for the C1 witness (`now - 3 days` for a `now` of
2023-12-09 00:01:40). -/
def c1Cutoff : DateTime := ⟨2023, 12, 6, 0, 1, 40⟩

/-- C2 counterexample: seeding at 2023-12-09 00:01:40 UTC (epoch
1702080100, 100 seconds past midnight), the seeder row for `day_off = 0`,
`i = 200` is stored with `day = "2023-12-09"` while its timestamp is
`"2023-12-08 23:58:20"`, whose 10-character date prefix is
`"2023-12-08"`. -/
theorem claim_c2_counterexample :
    seedRecord 1702080100 0 200 ∈ seedRecords 1702080100 ∧
    (seedRecord 1702080100 0 200).day
      ≠ String.mk ((seedRecord 1702080100 0 200).timestamp.data.take 10) ∧
    (seedRecord 1702080100 0 200).day
      ≠ dayOf (seedRecord 1702080100 0 200).timestamp := by
  refine ⟨?_, by decide, by decide⟩
  exact List.mem_flatMap.mpr ⟨0, List.mem_range.mpr (by decide),
    List.mem_map.mpr ⟨200, List.mem_range.mpr (by decide), rfl⟩⟩

/-- C2 amended: rows inserted through `save_position` always satisfy
`day = ` (part of the timestamp before the first space), which on
canonically rendered timestamps is exactly the 10-character date prefix;
the seeder rows satisfy the day-derivation invariant only when the seeding
instant is at least 999 seconds past midnight — otherwise synthetic
timestamps cross midnight and `day` differs from the timestamp's date
prefix (see the counterexample). -/
theorem claim_c2_day_derivation (store : List Position) (lat lon : Rat)
    (alt : Option Rat) (dt : DateTime) (now off i : Nat)
    (h1 : 999 ≤ now % 86400) (h2 : 2 * 86400 ≤ now)
    (hoff : off < 3) (hi : i < 1000) :
    (∀ r ∈ save_position store lat lon alt (render dt),
      r ∈ store ∨ (r.day = dayOf r.timestamp ∧
        r.day = String.mk (r.timestamp.data.take 10))) ∧
    ((seedRecord now off i).day = dayOf (seedRecord now off i).timestamp ∧
      (seedRecord now off i).day
        = String.mk ((seedRecord now off i).timestamp.data.take 10)) := by
  constructor
  · intro r hr
    rcases List.mem_append.mp hr with h | h
    · exact Or.inl h
    · obtain rfl := List.mem_singleton.mp h
      right
      refine ⟨rfl, ?_⟩
      show dayOf (render dt) = String.mk ((render dt).data.take 10)
      rw [dayOf_render, render_take_ten]
  · have hmod : i ≤ (now - off * 86400) % 86400 := by omega
    have hday : renderDate (civilFromSecs (now - off * 86400 - i))
        = renderDate (civilFromSecs (now - off * 86400)) :=
      renderDate_civil_sub hmod
    constructor
    · show renderDate (civilFromSecs (now - off * 86400))
        = dayOf (renderEpoch (now - off * 86400 - i))
      unfold renderEpoch
      rw [dayOf_render, hday]
    · show renderDate (civilFromSecs (now - off * 86400))
        = String.mk ((renderEpoch (now - off * 86400 - i)).data.take 10)
      unfold renderEpoch
      rw [render_take_ten, hday]

theorem claim_c2_witness :
    999 ≤ 1702081000 % 86400 ∧ 2 * 86400 ≤ 1702081000 ∧ 0 < 3 ∧ 999 < 1000 ∧
    ((∀ r ∈ save_position [] 1 2 none (render ⟨2023, 12, 9, 0, 1, 40⟩),
        r ∈ ([] : List Position) ∨ (r.day = dayOf r.timestamp ∧
          r.day = String.mk (r.timestamp.data.take 10))) ∧
      ((seedRecord 1702081000 0 999).day
          = dayOf (seedRecord 1702081000 0 999).timestamp ∧
        (seedRecord 1702081000 0 999).day
          = String.mk ((seedRecord 1702081000 0 999).timestamp.data.take 10))) :=
  ⟨by decide, by decide, by decide, by decide,
    claim_c2_day_derivation [] 1 2 none ⟨2023, 12, 9, 0, 1, 40⟩ 1702081000 0 999
      (by decide) (by decide) (by decide) (by decide)⟩

/-- C3 counterexample: the seeder row for `day_off = 0`, `i = 136` carries
latitude `45 + (136 - 90) = 91`, outside the claimed `[-90, 90]` range —
nothing range-validates records before storage. -/
theorem claim_c3_counterexample :
    seedRecord 1702080100 0 136 ∈ seedRecords 1702080100 ∧
    (90 : Rat) < (seedRecord 1702080100 0 136).latitude := by
  constructor
  · exact List.mem_flatMap.mpr ⟨0, List.mem_range.mpr (by decide),
      List.mem_map.mpr ⟨136, List.mem_range.mpr (by decide), rfl⟩⟩
  · show (90 : Rat) < seedLat 136
    decide

/-- C3 amended: stored records are not validated against coordinate ranges;
the seeder in fact stores latitudes covering `[-45, 134]` — its rows only
satisfy `-45 ≤ latitude ≤ 134`, while longitudes do stay within
`[-180, 180)`. -/
theorem claim_c3_seeder_ranges (now : Nat) :
    ∀ r ∈ seedRecords now,
      (-45 : Rat) ≤ r.latitude ∧ r.latitude ≤ 134 ∧
      (-180 : Rat) ≤ r.longitude ∧ r.longitude < 180 := by
  intro r hr
  obtain ⟨off, hoff, hmap⟩ := List.mem_flatMap.mp hr
  obtain ⟨i, hi, rfl⟩ := List.mem_map.mp hmap
  have hm : ((i % 180 : Nat) : Int) ≤ 179 := by omega
  have hm0 : (0 : Int) ≤ ((i % 180 : Nat) : Int) := by omega
  refine ⟨?_, ?_, ?_, ?_⟩
  · show (-45 : Rat) ≤ seedLat i
    unfold seedLat
    have h : (-45 : Int) ≤ 45 + (((i % 180 : Nat) : Int) - 90) := by omega
    exact_mod_cast h
  · show seedLat i ≤ 134
    unfold seedLat
    have h : 45 + (((i % 180 : Nat) : Int) - 90) ≤ (134 : Int) := by omega
    exact_mod_cast h
  · show (-180 : Rat) ≤ seedLon i
    unfold seedLon
    have hp := (pymodRat_bounds ((i : Rat) * (72 / 100))).1
    linarith
  · show seedLon i < 180
    unfold seedLon
    have hp := (pymodRat_bounds ((i : Rat) * (72 / 100))).2
    linarith

theorem claim_c3_witness :
    seedRecord 1702080100 1 500 ∈ seedRecords 1702080100 ∧
    ((-45 : Rat) ≤ (seedRecord 1702080100 1 500).latitude ∧
      (seedRecord 1702080100 1 500).latitude ≤ 134 ∧
      (-180 : Rat) ≤ (seedRecord 1702080100 1 500).longitude ∧
      (seedRecord 1702080100 1 500).longitude < 180) :=
  ⟨List.mem_flatMap.mpr ⟨1, List.mem_range.mpr (by decide),
      List.mem_map.mpr ⟨500, List.mem_range.mpr (by decide), rfl⟩⟩,
    claim_c3_seeder_ranges 1702080100 (seedRecord 1702080100 1 500)
      (List.mem_flatMap.mpr ⟨1, List.mem_range.mpr (by decide),
        List.mem_map.mpr ⟨500, List.mem_range.mpr (by decide), rfl⟩⟩)⟩

/-- Payload with numeric latitude/longitude but a non-numeric timestamp. -/
def c4BadPayload : Payload :=
  { latitude := .num 1, longitude := .num 2, altitude := .missing,
    timestamp := .str "abc", iss_position := none }

/-- C4 counterexample: a payload with numeric latitude/longitude but a
present non-numeric `timestamp` is rejected outright — `int("abc")` raises
and `fetch_iss_position_once` returns nothing — instead of falling back to
the current instant. -/
theorem claim_c4_counterexample :
    pyFloat c4BadPayload.latitude = some 1 ∧
    pyFloat c4BadPayload.longitude = some 2 ∧
    pyInt c4BadPayload.timestamp = none ∧
    parse_wther_resp c4BadPayload 1702080100 = none ∧
    fetch_iss_position_once (some c4BadPayload) 1702080100 = none :=
  ⟨rfl, rfl, rfl, rfl, rfl⟩

/-- C4 amended: only a *missing* `timestamp` falls back to the current
instant of the fetch (the produced `ts_utc` is `renderEpoch now`); a
present but non-integer-parseable timestamp raises inside `int()` and
rejects the whole payload. -/
theorem claim_c4_timestamp_fallback (data : Payload) (now : Nat) (lat lon : Rat)
    (hlat : data.latitude = .num lat) (hlon : data.longitude = .num lon)
    (halt : data.altitude = .missing ∨ data.altitude = .null ∨
      ∃ q, data.altitude = .num q) :
    (data.timestamp = .missing →
      ∃ p, parse_wther_resp data now = some p ∧ p.ts_utc = renderEpoch now ∧
        p.latitude = lat ∧ p.longitude = lon) ∧
    (∀ s, data.timestamp = .str s → parseIntString s = none →
      parse_wther_resp data now = none) := by
  constructor
  · intro hts
    rcases halt with ha | ha | ⟨q, ha⟩
    · exact ⟨⟨lat, lon, none, renderEpoch now⟩,
        by simp [parse_wther_resp, tsOrNow, hts, hlat, hlon, ha, pyFloat, Int.toNat_natCast],
        rfl, rfl, rfl⟩
    · exact ⟨⟨lat, lon, none, renderEpoch now⟩,
        by simp [parse_wther_resp, tsOrNow, hts, hlat, hlon, ha, pyFloat, Int.toNat_natCast],
        rfl, rfl, rfl⟩
    · exact ⟨⟨lat, lon, some q, renderEpoch now⟩,
        by simp [parse_wther_resp, tsOrNow, hts, hlat, hlon, ha, pyFloat, Int.toNat_natCast],
        rfl, rfl, rfl⟩
  · intro s hs hps
    simp [parse_wther_resp, tsOrNow, hs, pyInt, hps]

theorem claim_c4_witness :
    ((⟨.num 1, .num 2, .missing, .missing, none⟩ : Payload).latitude = .num 1) ∧
    ((⟨.num 1, .num 2, .missing, .missing, none⟩ : Payload).longitude = .num 2) ∧
    ((⟨.num 1, .num 2, .missing, .missing, none⟩ : Payload).altitude = .missing ∨
      (⟨.num 1, .num 2, .missing, .missing, none⟩ : Payload).altitude = .null ∨
      ∃ q, (⟨.num 1, .num 2, .missing, .missing, none⟩ : Payload).altitude = .num q) ∧
    (((⟨.num 1, .num 2, .missing, .missing, none⟩ : Payload).timestamp = .missing →
      ∃ p, parse_wther_resp ⟨.num 1, .num 2, .missing, .missing, none⟩ 1702080100
          = some p ∧
        p.ts_utc = renderEpoch 1702080100 ∧ p.latitude = 1 ∧ p.longitude = 2) ∧
    (∀ s, (⟨.num 1, .num 2, .missing, .missing, none⟩ : Payload).timestamp = .str s →
      parseIntString s = none →
      parse_wther_resp ⟨.num 1, .num 2, .missing, .missing, none⟩ 1702080100 = none)) :=
  ⟨rfl, rfl, Or.inl rfl,
    claim_c4_timestamp_fallback ⟨.num 1, .num 2, .missing, .missing, none⟩
      1702080100 1 2 rfl rfl (Or.inl rfl)⟩

/-- Payload with numeric latitude/longitude/timestamp but a non-numeric
altitude string. -/
def c5BadPayload : Payload :=
  { latitude := .num 1, longitude := .num 2, altitude := .str "abc",
    timestamp := .num 1700000000, iss_position := none }

/-- C5 counterexample: a payload whose `altitude` is present but not
parseable as a float is rejected entirely (`float("abc")` raises inside
the parse, caught by the fetch wrapper) — the bad altitude is a hard
failure, not coerced to an absent altitude. -/
theorem claim_c5_counterexample :
    parseFloatString "abc" = none ∧
    parse_wther_resp c5BadPayload 5 = none ∧
    fetch_iss_position_once (some c5BadPayload) 5 = none :=
  ⟨rfl, rfl, rfl⟩

/-- C5 amended: an *absent or null* altitude yields a stored position with
altitude absent, and a float-parseable altitude is kept; but an altitude
that is present, non-null and not float-parseable rejects the whole
payload. -/
theorem claim_c5_altitude (data : Payload) (now : Nat) (lat lon : Rat) (t : Int)
    (hlat : data.latitude = .num lat) (hlon : data.longitude = .num lon)
    (hts : tsOrNow data.timestamp now = some t) :
    ((data.altitude = .missing ∨ data.altitude = .null) →
      parse_wther_resp data now = some ⟨lat, lon, none, renderEpoch t.toNat⟩) ∧
    (∀ q : Rat, data.altitude = .num q →
      parse_wther_resp data now = some ⟨lat, lon, some q, renderEpoch t.toNat⟩) ∧
    (∀ s, data.altitude = .str s → parseFloatString s = none →
      parse_wther_resp data now = none) := by
  refine ⟨?_, ?_, ?_⟩
  · rintro (ha | ha) <;>
      simp [parse_wther_resp, hts, hlat, hlon, ha, pyFloat]
  · intro q ha
    simp [parse_wther_resp, hts, hlat, hlon, ha, pyFloat]
  · intro s ha hps
    simp [parse_wther_resp, hts, hlat, hlon, ha, pyFloat, hps]

theorem claim_c5_witness :
    ((⟨.num 3, .num 4, .null, .num 1700000000, none⟩ : Payload).latitude = .num 3) ∧
    ((⟨.num 3, .num 4, .null, .num 1700000000, none⟩ : Payload).longitude = .num 4) ∧
    tsOrNow (⟨.num 3, .num 4, .null, .num 1700000000, none⟩ : Payload).timestamp 5
      = some 1700000000 ∧
    ((((⟨.num 3, .num 4, .null, .num 1700000000, none⟩ : Payload).altitude = .missing ∨
        (⟨.num 3, .num 4, .null, .num 1700000000, none⟩ : Payload).altitude = .null) →
      parse_wther_resp ⟨.num 3, .num 4, .null, .num 1700000000, none⟩ 5
        = some ⟨3, 4, none, renderEpoch (1700000000 : Int).toNat⟩) ∧
    (∀ q : Rat, (⟨.num 3, .num 4, .null, .num 1700000000, none⟩ : Payload).altitude = .num q →
      parse_wther_resp ⟨.num 3, .num 4, .null, .num 1700000000, none⟩ 5
        = some ⟨3, 4, some q, renderEpoch (1700000000 : Int).toNat⟩) ∧
    (∀ s, (⟨.num 3, .num 4, .null, .num 1700000000, none⟩ : Payload).altitude = .str s →
      parseFloatString s = none →
      parse_wther_resp ⟨.num 3, .num 4, .null, .num 1700000000, none⟩ 5 = none)) :=
  ⟨rfl, rfl, by decide,
    claim_c5_altitude ⟨.num 3, .num 4, .null, .num 1700000000, none⟩ 5 3 4
      1700000000 rfl rfl (by decide)⟩

/-- Stored row with the later timestamp, inserted first. -/
def c6r1 : Position :=
  { id := 1, latitude := 1, longitude := 2, altitude := none,
    timestamp := "2025-01-02 00:00:00", day := "2025-01-02" }

/-- Stored row with the earlier timestamp, inserted last. -/
def c6r2 : Position :=
  { id := 2, latitude := 3, longitude := 4, altitude := none,
    timestamp := "2025-01-01 00:00:00", day := "2025-01-01" }

/-- C6 counterexample: with the live fetch failing and a store whose most
recently inserted row has an older timestamp, `/api/current` answers with
the maximal-timestamp row `c6r1`, not the most recently inserted row
`c6r2`. -/
theorem claim_c6_counterexample :
    (api_current none [c6r1, c6r2]).1 = .stored c6r1 ∧
    [c6r1, c6r2].getLast? = some c6r2 ∧
    c6r1 ≠ c6r2 :=
  ⟨rfl, rfl, by decide⟩

/-- C6 amended: when the live fetch succeeds, `/api/current` saves the
fetched sample into the store and returns it (not a stored row); when the
fetch fails it returns a stored row with maximal *timestamp* (not
necessarily the most recently inserted one), and only when additionally
the store is empty does it answer the "no data" signal with HTTP 404. -/
theorem claim_c6_current (store : List Position) (p : ParsedPos) :
    (api_current (some p) store
      = (.live p, save_position store p.latitude p.longitude p.altitude p.ts_utc)) ∧
    (store = [] →
      api_current none store = (.noData, store) ∧
      (api_current none store).1.status = 404) ∧
    (store ≠ [] → ∃ r, (api_current none store).1 = .stored r ∧
      (api_current none store).2 = store ∧ r ∈ store ∧
      ∀ q ∈ store, strLe q.timestamp r.timestamp) := by
  refine ⟨rfl, ?_, ?_⟩
  · rintro rfl
    exact ⟨rfl, rfl⟩
  · intro hne
    obtain ⟨r, hr, hmem, hall⟩ := latestByTimestamp_spec store hne
    refine ⟨r, ?_, ?_, hmem, hall⟩
    · simp [api_current, hr]
    · simp [api_current, hr]

theorem claim_c6_witness :
    ((api_current (some ⟨5, 6, none, "2025-01-03 00:00:00"⟩) [c6r1, c6r2]
      = (.live ⟨5, 6, none, "2025-01-03 00:00:00"⟩,
         save_position [c6r1, c6r2] 5 6 none "2025-01-03 00:00:00")) ∧
    ([c6r1, c6r2] = ([] : List Position) →
      api_current none [c6r1, c6r2] = (.noData, [c6r1, c6r2]) ∧
      (api_current none [c6r1, c6r2]).1.status = 404) ∧
    ([c6r1, c6r2] ≠ ([] : List Position) →
      ∃ r, (api_current none [c6r1, c6r2]).1 = .stored r ∧
        (api_current none [c6r1, c6r2]).2 = [c6r1, c6r2] ∧ r ∈ [c6r1, c6r2] ∧
        ∀ q ∈ [c6r1, c6r2], strLe q.timestamp r.timestamp)) ∧
    [c6r1, c6r2] ≠ ([] : List Position) :=
  ⟨claim_c6_current [c6r1, c6r2] ⟨5, 6, none, "2025-01-03 00:00:00"⟩, by decide⟩

/-- Live sample used to exhibit the write performed by `/api/current`. -/
def c7p : ParsedPos :=
  { latitude := 5, longitude := 6, altitude := none,
    ts_utc := "2025-01-03 00:00:00" }

/-- C7 counterexample: `/api/current` is not read-only — when the live
fetch succeeds it inserts the fetched sample, so the store after the call
differs from the store before it. -/
theorem claim_c7_counterexample :
    (api_current (some c7p) []).2 ≠ ([] : List Position) := by
  decide

/-- C7 amended: the paginated listing, the CSV export and the stats
handlers never modify the store, and neither does `/api/current` when the
live fetch fails; but on fetch success `/api/current` appends the fetched
sample via `save_position` — the poller is not the only writer. -/
theorem claim_c7_readers (pageArg perArg dayF dayF2 : Option String)
    (allFlag : Bool) (store : List Position) (p : ParsedPos) :
    (api_all_records pageArg perArg dayF store).2 = store ∧
    (download_csv dayF2 allFlag store).2 = store ∧
    (api_stats store).2 = store ∧
    (api_current none store).2 = store ∧
    (api_current (some p) store).2
      = save_position store p.latitude p.longitude p.altitude p.ts_utc := by
  refine ⟨?_, rfl, rfl, ?_, rfl⟩
  · unfold api_all_records
    cases argInt pageArg 1 <;> cases argInt perArg 1000 <;> rfl
  · unfold api_current
    cases latestByTimestamp store <;> rfl

/-- C8 counterexample: `page=0` is not rejected as a client error — the
handler silently coerces it to page 1 and answers normally; and a
non-integer `page=abc` raises inside the handler and is answered with the
generic 500 server error, not a client error. -/
theorem claim_c8_counterexample :
    (api_all_records (some "0") none none []).1
      = .ok { records := [], total := 0, page := 1, per_page := 1000,
              total_pages := 1, available_days := [] } ∧
    (api_all_records (some "abc") none none []).1
      = .error "Unable to fetch records" :=
  ⟨rfl, rfl⟩

/-- C8 amended: when `page` and `per_page` both parse as integers the
handler answers OK with `page` silently clamped below to 1 (never a client
error for non-positive pages) and `per_page` clamped into `[1, 5000]`; at
most `per_page` records are returned and `total_pages` is the ceiling of
`total / per_page` (1 for an empty selection).  Non-integer parameters
surface as the 500 server error (see the counterexample), not a client
error. -/
theorem claim_c8_pagination (pageArg perArg dayF : Option String)
    (store : List Position) (k j : Int)
    (hk : argInt pageArg 1 = some k) (hj : argInt perArg 1000 = some j) :
    ∃ resp, (api_all_records pageArg perArg dayF store).1 = .ok resp ∧
      resp.page = (max 1 k).toNat ∧ 1 ≤ resp.page ∧
      resp.per_page = (min 5000 (max 1 j)).toNat ∧
      1 ≤ resp.per_page ∧ resp.per_page ≤ 5000 ∧
      resp.records.length ≤ resp.per_page ∧
      resp.total_pages = (if resp.total = 0 then 1
        else (resp.total + resp.per_page - 1) / resp.per_page) := by
  unfold api_all_records
  rw [hk, hj]
  refine ⟨_, rfl, rfl, ?_, rfl, ?_, ?_, ?_, rfl⟩
  · dsimp only
    omega
  · dsimp only
    omega
  · dsimp only
    omega
  · dsimp only
    exact List.length_take_le _ _

theorem claim_c8_witness :
    argInt (some "0") 1 = some 0 ∧ argInt (some "9999") 1000 = some 9999 ∧
    ∃ resp, (api_all_records (some "0") (some "9999") none []).1 = .ok resp ∧
      resp.page = ((max 1 0 : Int)).toNat ∧ 1 ≤ resp.page ∧
      resp.per_page = ((min 5000 (max 1 9999) : Int)).toNat ∧
      1 ≤ resp.per_page ∧ resp.per_page ≤ 5000 ∧
      resp.records.length ≤ resp.per_page ∧
      resp.total_pages = (if resp.total = 0 then 1
        else (resp.total + resp.per_page - 1) / resp.per_page) :=
  ⟨by decide, by decide,
    claim_c8_pagination (some "0") (some "9999") none [] 0 9999
      (by decide) (by decide)⟩

/-- Row used for the C9 witness. -/
def c9r : Position :=
  { id := 7, latitude := 10, longitude := 20, altitude := some 408,
    timestamp := "2025-02-03 04:05:06", day := "2025-02-03" }

/-- C9 counterexample: the header row the export actually yields is
`id,latitude,longitude,altitude,ts_utc,day`, not the claimed
`id,latitude,longitude,altitude,timestamp,day`. -/
theorem claim_c9_counterexample :
    (download_csv none false []).1.header
      ≠ "id,latitude,longitude,altitude,timestamp,day" := by
  decide

/-- C9 amended: the CSV output is the header row
`id,latitude,longitude,altitude,ts_utc,day` followed by one data row per
record of the selected scope (one day, or the whole table when no truthy
day is given or `all=1`), in ascending timestamp order, with no row
omitted or duplicated (the emitted row list is a permutation of the
scope's records). -/
theorem claim_c9_export (store : List Position) (d : String) (hd : d ≠ "") :
    ((download_csv none false store).1.header
      = "id,latitude,longitude,altitude,ts_utc,day") ∧
    ((download_csv none false store).1.rows.Perm store) ∧
    (List.Pairwise (fun a b => strLe a.timestamp b.timestamp)
      (download_csv none false store).1.rows) ∧
    ((download_csv (some d) false store).1.rows.Perm
      (store.filter fun r => decide (r.day = d))) ∧
    (List.Pairwise (fun a b => strLe a.timestamp b.timestamp)
      (download_csv (some d) false store).1.rows) ∧
    ((download_csv (some d) true store).1.rows.Perm store) := by
  haveI htot : IsTotal Position fun a b => strLe a.timestamp b.timestamp :=
    ⟨fun a b => strLe_total _ _⟩
  haveI htr : IsTrans Position fun a b => strLe a.timestamp b.timestamp :=
    ⟨fun a b c h1 h2 => strLe_trans h1 h2⟩
  have hde : d.isEmpty = false := by
    rw [Bool.eq_false_iff]
    intro h
    exact hd ((String.isEmpty_iff d).mp h)
  refine ⟨rfl, ?_, ?_, ?_, ?_, ?_⟩
  · exact List.perm_insertionSort _ _
  · exact List.sorted_insertionSort _ _
  · show (download_csv (some d) false store).1.rows.Perm _
    simp only [download_csv, hde, Bool.not_false, Bool.true_and, Bool.not_true,
      Bool.and_true, if_true]
    exact List.perm_insertionSort _ _
  · simp only [download_csv, hde, Bool.not_false, Bool.true_and, Bool.not_true,
      Bool.and_true, if_true]
    exact List.sorted_insertionSort _ _
  · simp only [download_csv, hde, Bool.not_false, Bool.true_and, Bool.not_true,
      Bool.and_true, Bool.and_false, if_false]
    exact List.perm_insertionSort _ _

theorem claim_c9_witness :
    "2025-02-03" ≠ "" ∧
    (((download_csv none false [c9r]).1.header
      = "id,latitude,longitude,altitude,ts_utc,day") ∧
    ((download_csv none false [c9r]).1.rows.Perm [c9r]) ∧
    (List.Pairwise (fun a b => strLe a.timestamp b.timestamp)
      (download_csv none false [c9r]).1.rows) ∧
    ((download_csv (some "2025-02-03") false [c9r]).1.rows.Perm
      ([c9r].filter fun r => decide (r.day = "2025-02-03"))) ∧
    (List.Pairwise (fun a b => strLe a.timestamp b.timestamp)
      (download_csv (some "2025-02-03") false [c9r]).1.rows) ∧
    ((download_csv (some "2025-02-03") true [c9r]).1.rows.Perm [c9r])) :=
  ⟨by decide, claim_c9_export [c9r] "2025-02-03" (by decide)⟩

theorem claim_c1_witness :
    (∀ r ∈ c1Store, r.timestamp = render (c1Dts r) ∧ (c1Dts r).Valid) ∧
    c1Cutoff.Valid ∧
    (((cleanup_old_data (render c1Cutoff) c1Store).2
        = c1Store.countP fun r => decide (chronLt (c1Dts r) c1Cutoff)) ∧
      (∀ r ∈ c1Store,
        (r ∈ (cleanup_old_data (render c1Cutoff) c1Store).1 ↔
          ¬ chronLt (c1Dts r) c1Cutoff)) ∧
      (∀ r ∈ (cleanup_old_data (render c1Cutoff) c1Store).1,
        chronLE c1Cutoff (c1Dts r)) ∧
      cleanup_old_data (render c1Cutoff) (cleanup_old_data (render c1Cutoff) c1Store).1
        = ((cleanup_old_data (render c1Cutoff) c1Store).1, 0)) :=
  ⟨by decide, by decide, claim_c1_eviction c1Store c1Cutoff c1Dts (by decide) (by decide)⟩

end ISSTracker
